import Mathlib

/-!
Verification of the email-productivity agent (Streamlit app `app.py` plus
`src/prompt_manager.py`).  The repository ships only the UI layer and the
prompt manager; the `Storage`, `EmailProcessor` and `LLMHandler` modules are
referenced but their files are absent, so those parts are modelled from the
design specification (each such definition is marked `Modelled from the
spec:`).  Python dicts are embedded as association lists with Python's
insertion-order update semantics; JSON documents as an inductive `Json`
type; the remote LLM as an oracle function from prompt text to a response.
-/

set_option autoImplicit false

namespace EmailAgent

/-- An inbox email record: `{id, sender, subject, body, timestamp}`. -/
structure Email where
  id : String
  sender : String
  subject : String
  body : String
  timestamp : String
deriving DecidableEq

/-- One extracted action item `{task, deadline, priority}`. -/
structure Task where
  task : String
  deadline : String
  priority : String
deriving DecidableEq

/-- The `action_items` substructure of a processed result: `{tasks: [...]}`. -/
structure ActionItems where
  tasks : List Task
deriving DecidableEq

/-- The `suggested_reply` substructure: `{subject, body}`. -/
structure SuggestedReply where
  subject : String
  body : String
deriving DecidableEq

/-- A processed-email record, keyed in the processed map by email id. -/
structure ProcessedResult where
  category : String
  summary : String
  action_items : ActionItems
  suggested_reply : SuggestedReply
deriving DecidableEq

/-- A saved draft `{id, to, subject, body, reply_to?, created_at}`. -/
structure Draft where
  id : String
  «to» : String
  subject : String
  body : String
  reply_to : Option String
  created_at : String
deriving DecidableEq

/-- Python-dict lookup `m.get(k)` on an insertion-ordered association list. -/
def lookup_key {α : Type} (m : List (String × α)) (k : String) : Option α :=
  (m.find? (fun p => p.1 == k)).map Prod.snd

/-- Python-dict membership `k in m`. -/
def has_key {α : Type} (m : List (String × α)) (k : String) : Bool :=
  (lookup_key m k).isSome

/-- Python-dict assignment `m[k] = v`: replaces the value at an existing key
in place, otherwise appends the new pair at the end. -/
def set_key {α : Type} : List (String × α) → String → α → List (String × α)
  | [], k, v => [(k, v)]
  | p :: t, k, v => if p.1 == k then (k, v) :: t else p :: set_key t k v

/-- Modelled from the spec: the Record Store (`src/storage.py`, absent from
the repository) keeps four flat JSON collections — inbox array, processed
map keyed by email id, prompt-template map, drafts array — each read and
written wholesale.  A field holds `none` when its backing file is absent or
unreadable (a failed whole-file parse). -/
structure Storage where
  inbox_file : Option (List Email)
  processed_file : Option (List (String × ProcessedResult))
  prompts_file : Option (List (String × String))
  drafts_file : Option (List Draft)

/-- Modelled from the spec: `load` returns an empty default collection when
the inbox file is absent or unreadable. -/
def Storage.load_inbox (s : Storage) : List Email :=
  s.inbox_file.getD []

/-- Modelled from the spec: whole-file load of the processed-results map,
defaulting to empty on an absent or unreadable file. -/
def Storage.load_processed_emails (s : Storage) : List (String × ProcessedResult) :=
  s.processed_file.getD []

/-- Modelled from the spec: whole-file load of the prompt-template map,
defaulting to empty on an absent or unreadable file. -/
def Storage.load_prompts (s : Storage) : List (String × String) :=
  s.prompts_file.getD []

/-- Modelled from the spec: whole-file load of the drafts array, defaulting
to empty on an absent or unreadable file. -/
def Storage.load_drafts (s : Storage) : List Draft :=
  s.drafts_file.getD []

/-- Modelled from the spec: whole-file save of the prompt-template map. -/
def Storage.save_prompts (s : Storage) (prompts : List (String × String)) : Storage :=
  { s with prompts_file := some prompts }

/-- Modelled from the spec: whole-file save of the processed-results map. -/
def Storage.save_processed_emails (s : Storage) (m : List (String × ProcessedResult)) : Storage :=
  { s with processed_file := some m }

/-- Modelled from the spec: `update_prompt` on the Record Store delegates to
a whole-map save with one key rebound. -/
def Storage.update_prompt (s : Storage) (prompt_type prompt_text : String) : Storage :=
  s.save_prompts (set_key s.load_prompts prompt_type prompt_text)

/-- Insertion into the drafts array keyed by `id`: an existing draft with
the same id is replaced in place, otherwise the draft is appended. -/
def upsert_draft : List Draft → Draft → List Draft
  | [], d => [d]
  | x :: t, d => if x.id == d.id then d :: t else x :: upsert_draft t d

/-- Modelled from the spec: `save_draft` persists one draft into the drafts
collection, updatable by its identity key `id`. -/
def Storage.save_draft (s : Storage) (d : Draft) : Storage :=
  { s with drafts_file := some (upsert_draft s.load_drafts d) }

/-- Modelled from the spec: `delete_draft` removes the draft with the given
id from the drafts collection. -/
def Storage.delete_draft (s : Storage) (draft_id : String) : Storage :=
  { s with drafts_file := some (s.load_drafts.filter (fun x => x.id != draft_id)) }

/-- The built-in default prompt templates of `PromptManager.__init__`
(`src/prompt_manager.py`), in insertion order. -/
def default_prompts : List (String × String) :=
  [ ("categorization", "Analyze the email and categorize it into exactly ONE of these categories: Important, Newsletter, Spam, To-Do, or Update.\n\nCategorization rules:\n- **Important**: Urgent matters, critical security issues, deadline-driven tasks, executive communications\n- **Newsletter**: Marketing emails, promotional content, news digests, automated updates from services\n- **Spam**: Suspicious emails, lottery/prize scams, unsolicited offers, obvious phishing attempts\n- **To-Do**: Direct requests requiring user action, meeting requests needing response, approval requests, review requests\n- **Update**: Status updates, FYI emails, project progress reports, informational messages\n\nRespond with ONLY the category name, nothing else.")
  , ("action_item", "Extract all action items and tasks from this email. For each action item, identify:\n1. The specific task or action required\n2. Any deadline or due date mentioned\n3. Priority level (High/Medium/Low)\n\nRespond in JSON format:\n\x7b\n  \"tasks\": [\n    \x7b\n      \"task\": \"description of the task\",\n      \"deadline\": \"date or \x27Not specified\x27\",\n      \"priority\": \"High/Medium/Low\"\n    \x7d\n  ]\n\x7d\n\nIf no action items exist, return: \x7b\"tasks\": []\x7d")
  , ("auto_reply", "Generate a professional email reply based on the email content and context.\n\nGuidelines:\n1. If it\x27s a meeting request: Acknowledge and ask for an agenda or confirm availability\n2. If it\x27s a task request: Confirm receipt and provide estimated timeline\n3. If it\x27s informational: Acknowledge and thank the sender\n4. Keep the tone professional but friendly\n5. Keep replies concise (3-5 sentences)\n\nProvide the reply in this JSON format:\n\x7b\n  \"subject\": \"Re: [original subject]\",\n  \"body\": \"your reply here\"\n\x7d")
  , ("summary", "Provide a concise 2-3 sentence summary of this email highlighting:\n1. Main purpose/topic\n2. Key information or requests\n3. Any deadlines or important dates\n\nKeep it brief and actionable.")
  ]

namespace PromptManager

/-- `PromptManager.get_all_prompts`: loads stored templates; when none
exist, saves the defaults into storage and returns a copy of them.  Returns
the prompt map together with the (possibly seeded) storage state. -/
def get_all_prompts (s : Storage) : List (String × String) × Storage :=
  let prompts := s.load_prompts
  if prompts.isEmpty then (default_prompts, s.save_prompts default_prompts)
  else (prompts, s)

/-- `PromptManager.get_prompt`: `self.get_all_prompts().get(prompt_type, "")`. -/
def get_prompt (s : Storage) (prompt_type : String) : String × Storage :=
  let r := get_all_prompts s
  ((lookup_key r.1 prompt_type).getD "", r.2)

/-- `PromptManager.update_prompt` delegates to `Storage.update_prompt`. -/
def update_prompt (s : Storage) (prompt_type prompt_text : String) : Storage :=
  s.update_prompt prompt_type prompt_text

/-- `PromptManager.save_all_prompts` delegates to `Storage.save_prompts`. -/
def save_all_prompts (s : Storage) (prompts : List (String × String)) : Storage :=
  s.save_prompts prompts

/-- `PromptManager.reset_to_defaults`: saves the default map wholesale. -/
def reset_to_defaults (s : Storage) : Storage :=
  s.save_prompts default_prompts

/-- `PromptManager.get_prompt_types`: `list(self.default_prompts.keys())`;
reads only the in-memory default map, never the storage state. -/
def get_prompt_types (_s : Storage) : List String :=
  default_prompts.map Prod.fst

end PromptManager

/-- A JSON value, for the caller-side parsing of Gateway responses. -/
inductive Json where
  | null : Json
  | bool : Bool → Json
  | num : Int → Json
  | str : String → Json
  | arr : List Json → Json
  | obj : List (String × Json) → Json

/-- Modelled from the spec: a Gateway response is raw model text, "expected
to sometimes be JSON (caller-side parsing)"; `json` is the outcome of the
library JSON parse of `text` (`none` when the text is malformed JSON). -/
structure GatewayResponse where
  text : String
  json : Option Json

/-- Modelled from the spec: the LLM Gateway as an oracle from a prompt
string to either a `GatewayError` message or a response. -/
def Gateway : Type := String → Except String GatewayResponse

/-- The five fixed email categories. -/
def valid_categories : List String :=
  ["Important", "Newsletter", "Spam", "To-Do", "Update"]

/-- The five categories plus the sentinel shown for anything invalid or
unprocessed (`app.py` Inbox Viewer defaults a missing category to
"Unprocessed"). -/
def allowed_display_categories : List String :=
  valid_categories ++ ["Unprocessed"]

/-- Modelled from the spec: the categorization task "expects a bare
category label (validated against the fixed enum, else treated as
'Unprocessed'/invalid)"; a Gateway failure leaves no result for the call. -/
def parse_category_response : Except String GatewayResponse → String
  | .error _ => "Unprocessed"
  | .ok r => if valid_categories.contains r.text.trim then r.text.trim else "Unprocessed"

/-- Field lookup in a parsed JSON object. -/
def json_get (fields : List (String × Json)) (k : String) : Option Json :=
  (fields.find? (fun p => p.1 == k)).map Prod.snd

/-- Extracts a JSON string value, if the value is a string. -/
def json_str : Option Json → Option String
  | some (Json.str s) => some s
  | _ => none

/-- One task object from the action-item JSON schema; missing or non-string
fields default to the empty string. -/
def parse_task_json (j : Json) : Task :=
  match j with
  | Json.obj f =>
    { task := (json_str (json_get f "task")).getD ""
    , deadline := (json_str (json_get f "deadline")).getD ""
    , priority := (json_str (json_get f "priority")).getD "" }
  | _ => { task := "", deadline := "", priority := "" }

/-- Modelled from the spec: the action-item task expects well-formed JSON
matching the `{"tasks": [...]}` schema; "parse failure → empty/default
substructure, not a pipeline abort", and a Gateway failure likewise leaves
the empty task list. -/
def parse_action_items_response : Except String GatewayResponse → ActionItems
  | .error _ => { tasks := [] }
  | .ok r =>
    match r.json with
    | some (Json.obj fields) =>
      match json_get fields "tasks" with
      | some (Json.arr xs) => { tasks := xs.map parse_task_json }
      | _ => { tasks := [] }
    | _ => { tasks := [] }

/-- Modelled from the spec: the auto-reply task expects well-formed JSON
`{"subject": ..., "body": ...}`; parse failure yields the empty reply. -/
def parse_auto_reply_response : Except String GatewayResponse → SuggestedReply
  | .error _ => { subject := "", body := "" }
  | .ok r =>
    match r.json with
    | some (Json.obj fields) =>
      { subject := (json_str (json_get fields "subject")).getD ""
      , body := (json_str (json_get fields "body")).getD "" }
    | _ => { subject := "", body := "" }

/-- Modelled from the spec: the summary "is accepted as free text"; a
Gateway failure leaves no result for the call. -/
def parse_summary_response : Except String GatewayResponse → String
  | .error _ => ""
  | .ok r => r.text

/-- Modelled from the spec: rendering a task's template "with the email's
subject/sender/body substituted" — the email content is appended to the
template text. -/
def render_prompt (template : String) (email : Email) : String :=
  template ++ "\n\nEmail Details:\nFrom: " ++ email.sender ++ "\nSubject: "
    ++ email.subject ++ "\nBody: " ++ email.body

/-- Modelled from the spec: for each of the four task types, render that
task's template, invoke the Gateway, and parse the result; the four calls
are independent — one failing does not block the others. -/
def build_processed_result (gateway : Gateway) (email : Email)
    (prompts : List (String × String)) : ProcessedResult :=
  { category := parse_category_response
      (gateway (render_prompt ((lookup_key prompts "categorization").getD "") email))
  , summary := parse_summary_response
      (gateway (render_prompt ((lookup_key prompts "summary").getD "") email))
  , action_items := parse_action_items_response
      (gateway (render_prompt ((lookup_key prompts "action_item").getD "") email))
  , suggested_reply := parse_auto_reply_response
      (gateway (render_prompt ((lookup_key prompts "auto_reply").getD "") email)) }

/-- Modelled from the spec: `process_single_email(email, prompts)` runs the
four tasks and "merges results into the processed-record store" under the
email's id, overwriting any previous record for that id wholesale. -/
def process_single_email (gateway : Gateway) (email : Email)
    (prompts : List (String × String)) (s : Storage) : Storage :=
  s.save_processed_emails
    (set_key s.load_processed_emails email.id (build_processed_result gateway email prompts))

/-- The category shown by the Inbox Viewer for an email id:
`processed_emails.get(email_id, {}).get('category', 'Unprocessed')`. -/
def display_category (m : List (String × ProcessedResult)) (email_id : String) : String :=
  match lookup_key m email_id with
  | some r => r.category
  | none => "Unprocessed"

/-- A sample inbox email (the scenario of the spec, section 8). -/
def sample_email : Email :=
  { id := "e1", sender := "a@x.com", subject := "Meeting",
    body := "Can we meet Friday?", timestamp := "2025-01-01T00:00:00" }

/-- A gateway that always fails with a network error. -/
def failing_gateway : Gateway := fun _ => Except.error "network error"

/-- A gateway that always answers with text that is not well-formed JSON. -/
def malformed_gateway : Gateway := fun _ => Except.ok { text := "oops, not JSON", json := none }

/-- A storage state whose four backing files are all absent. -/
def empty_storage : Storage :=
  { inbox_file := none, processed_file := none, prompts_file := none, drafts_file := none }

/-- A storage state with one inbox email and no other data. -/
def sample_storage : Storage :=
  { inbox_file := some [sample_email], processed_file := none,
    prompts_file := none, drafts_file := none }

/-- A storage state holding a single stored prompt template. -/
def small_prompt_storage : Storage :=
  { inbox_file := none, processed_file := none,
    prompts_file := some [("summary", "Summarize.")], drafts_file := none }

theorem lookup_key_nil {α : Type} (k : String) :
    lookup_key ([] : List (String × α)) k = none := rfl

theorem lookup_key_cons {α : Type} (p : String × α) (t : List (String × α)) (k : String) :
    lookup_key (p :: t) k = if p.1 == k then some p.2 else lookup_key t k := by
  by_cases h : p.1 = k
  · simp [lookup_key, h]
  · simp [lookup_key, h]

theorem lookup_key_set_key_self {α : Type} (m : List (String × α)) (k : String) (v : α) :
    lookup_key (set_key m k v) k = some v := by
  induction m with
  | nil => simp [set_key, lookup_key_cons]
  | cons p t ih =>
    by_cases h : p.1 = k
    · simp [set_key, h, lookup_key_cons]
    · simp [set_key, h, lookup_key_cons, ih]

theorem lookup_key_set_key_ne {α : Type} (m : List (String × α)) (k k' : String) (v : α)
    (h : k' ≠ k) : lookup_key (set_key m k v) k' = lookup_key m k' := by
  induction m with
  | nil => simp [set_key, lookup_key_cons, lookup_key_nil, Ne.symm h]
  | cons p t ih =>
    by_cases hp : p.1 = k
    · simp [set_key, hp, lookup_key_cons, Ne.symm h]
    · simp [set_key, hp, lookup_key_cons, ih]

theorem all_set_key {α : Type} (p : String × α → Bool) (m : List (String × α)) (k : String)
    (v : α) (hm : m.all p = true) (hv : p (k, v) = true) : (set_key m k v).all p = true := by
  induction m with
  | nil => simp [set_key, hv]
  | cons q t ih =>
    simp only [List.all_cons, Bool.and_eq_true] at hm
    by_cases h : q.1 = k
    · simp [set_key, h, List.all_cons, hv, hm.2]
    · simp [set_key, h, List.all_cons, hm.1, ih hm.2]

theorem mem_upsert_draft_self (l : List Draft) (d : Draft) : d ∈ upsert_draft l d := by
  induction l with
  | nil => simp [upsert_draft]
  | cons x t ih =>
    by_cases h : x.id = d.id
    · simp [upsert_draft, h]
    · simp [upsert_draft, h, ih]

theorem parse_category_response_allowed (r : Except String GatewayResponse) :
    allowed_display_categories.contains (parse_category_response r) = true := by
  cases r with
  | error e =>
    simp only [parse_category_response]
    decide
  | ok resp =>
    simp only [parse_category_response]
    cases h : valid_categories.contains resp.text.trim with
    | true =>
      have hmem : resp.text.trim ∈ allowed_display_categories :=
        List.mem_append_left _ (by simpa using h)
      simp [hmem]
    | false =>
      simp [h]
      decide

theorem display_category_allowed (m : List (String × ProcessedResult)) (email_id : String)
    (hm : m.all (fun kv => allowed_display_categories.contains kv.2.category) = true) :
    allowed_display_categories.contains (display_category m email_id) = true := by
  cases hl : lookup_key m email_id with
  | none =>
    simp [display_category, hl]
    decide
  | some r =>
    have hf : ∃ q ∈ m, q.2 = r := by
      unfold lookup_key at hl
      cases hfind : m.find? (fun p => p.1 == email_id) with
      | none => rw [hfind] at hl; simp at hl
      | some q =>
        rw [hfind] at hl
        simp at hl
        exact ⟨q, List.mem_of_find?_eq_some hfind, hl⟩
    obtain ⟨q, hqm, hqr⟩ := hf
    have hq := List.all_eq_true.mp hm q hqm
    simp only [display_category, hl]
    simpa [hqr] using hq

/-- Claim C1: for every email in the inbox, after `process_single_email` is
invoked on that email, the processed-result map contains an entry keyed by
that email's id. -/
theorem process_single_email_registers_email_id (gateway : Gateway) (email : Email)
    (prompts : List (String × String)) (s : Storage) (_hmem : email ∈ s.load_inbox) :
    has_key (process_single_email gateway email prompts s).load_processed_emails
      email.id = true := by
  simp [process_single_email, Storage.save_processed_emails, Storage.load_processed_emails,
    has_key, lookup_key_set_key_self]

theorem process_single_email_registers_email_id_witness :
    sample_email ∈ sample_storage.load_inbox ∧
      has_key (process_single_email failing_gateway sample_email []
        sample_storage).load_processed_emails sample_email.id = true :=
  ⟨by decide, process_single_email_registers_email_id failing_gateway sample_email []
    sample_storage (by decide)⟩

/-- Claim C2: every processed result produced by the pipeline carries a
category among the five enumerated values or the sentinel "Unprocessed";
processing preserves that invariant over the whole stored map, and the
category the Inbox Viewer displays for any email id is likewise always in
that set. -/
theorem processed_categories_within_enum (gateway : Gateway) (email : Email)
    (prompts : List (String × String)) (s : Storage) (email_id : String)
    (hall : s.load_processed_emails.all
        (fun kv => allowed_display_categories.contains kv.2.category) = true) :
    (process_single_email gateway email prompts s).load_processed_emails.all
        (fun kv => allowed_display_categories.contains kv.2.category) = true ∧
      allowed_display_categories.contains
        (display_category
          (process_single_email gateway email prompts s).load_processed_emails
          email_id) = true := by
  have hv : (fun kv : String × ProcessedResult =>
      allowed_display_categories.contains kv.2.category)
      (email.id, build_processed_result gateway email prompts) = true := by
    simpa [build_processed_result] using
      parse_category_response_allowed
        (gateway (render_prompt ((lookup_key prompts "categorization").getD "") email))
  have hset := all_set_key _ s.load_processed_emails email.id
    (build_processed_result gateway email prompts) hall hv
  have hload : (process_single_email gateway email prompts s).load_processed_emails.all
      (fun kv => allowed_display_categories.contains kv.2.category) = true := by
    simpa [process_single_email, Storage.save_processed_emails,
      Storage.load_processed_emails] using hset
  exact ⟨hload, display_category_allowed _ _ hload⟩

theorem processed_categories_within_enum_witness :
    sample_storage.load_processed_emails.all
        (fun kv => allowed_display_categories.contains kv.2.category) = true ∧
      ((process_single_email failing_gateway sample_email []
          sample_storage).load_processed_emails.all
          (fun kv => allowed_display_categories.contains kv.2.category) = true ∧
        allowed_display_categories.contains
          (display_category
            (process_single_email failing_gateway sample_email []
              sample_storage).load_processed_emails "e2") = true) :=
  ⟨rfl, processed_categories_within_enum failing_gateway sample_email [] sample_storage
    "e2" rfl⟩

/-- Claim C3: when the Gateway returns malformed JSON for the action-item
task, the processed record is still stored under the email's id and its
`action_items.tasks` is the empty sequence; `process_single_email` is a
total function, so no error reaches the caller. -/
theorem malformed_action_item_json_yields_empty_tasks (gateway : Gateway) (email : Email)
    (prompts : List (String × String)) (s : Storage) (r : GatewayResponse)
    (hok : gateway (render_prompt ((lookup_key prompts "action_item").getD "") email)
      = Except.ok r)
    (hbad : r.json = none) :
    lookup_key (process_single_email gateway email prompts s).load_processed_emails email.id
        = some (build_processed_result gateway email prompts) ∧
      (build_processed_result gateway email prompts).action_items.tasks = [] := by
  constructor
  · simp [process_single_email, Storage.save_processed_emails, Storage.load_processed_emails,
      lookup_key_set_key_self]
  · simp [build_processed_result, hok, parse_action_items_response, hbad]

theorem malformed_action_item_json_yields_empty_tasks_witness :
    malformed_gateway (render_prompt ((lookup_key [] "action_item").getD "") sample_email)
        = Except.ok { text := "oops, not JSON", json := none } ∧
      ({ text := "oops, not JSON", json := none } : GatewayResponse).json = none ∧
      (lookup_key (process_single_email malformed_gateway sample_email []
            empty_storage).load_processed_emails sample_email.id
          = some (build_processed_result malformed_gateway sample_email []) ∧
        (build_processed_result malformed_gateway sample_email []).action_items.tasks = []) :=
  ⟨rfl, rfl, malformed_action_item_json_yields_empty_tasks malformed_gateway sample_email []
    empty_storage { text := "oops, not JSON", json := none } rfl rfl⟩

/-- Claim C4: `reset_to_defaults()` followed by `get_all_prompts()` returns
exactly the built-in default prompt map, whose keys are exactly the four
task types. -/
theorem reset_then_get_all_yields_defaults (s : Storage) :
    (PromptManager.get_all_prompts (PromptManager.reset_to_defaults s)).1
        = default_prompts ∧
      default_prompts.map Prod.fst
        = ["categorization", "action_item", "auto_reply", "summary"] := by
  have hne : default_prompts.isEmpty = false := rfl
  constructor
  · simp [PromptManager.get_all_prompts, PromptManager.reset_to_defaults,
      Storage.save_prompts, Storage.load_prompts, hne]
  · rfl

/-- Claim C5: `get_all_prompts` returns the stored templates when any are
stored, and otherwise seeds the store with the built-in defaults and
returns them; in both cases the store afterwards holds exactly the returned
map. -/
theorem get_all_prompts_lazy_init (s : Storage) :
    (PromptManager.get_all_prompts s).1
        = (if s.load_prompts.isEmpty then default_prompts else s.load_prompts) ∧
      (PromptManager.get_all_prompts s).2.load_prompts
        = (if s.load_prompts.isEmpty then default_prompts else s.load_prompts) := by
  by_cases h : s.load_prompts.isEmpty = true
  · simp only [PromptManager.get_all_prompts, h]
    exact ⟨rfl, by simp [Storage.save_prompts, Storage.load_prompts]⟩
  · have h2 : s.load_prompts.isEmpty = false := by
      cases hh : s.load_prompts.isEmpty
      · rfl
      · exact absurd hh h
    simp only [PromptManager.get_all_prompts, h2]
    exact ⟨rfl, rfl⟩

/-- Claim C6: saving a draft then loading drafts yields a list containing a
draft with identical to, subject and body; deleting that draft by id then
loading drafts yields a list with no draft of that id. -/
theorem draft_save_load_delete_roundtrip (s : Storage) (d : Draft) :
    ((s.save_draft d).load_drafts.any
        (fun x => x.«to» == d.«to» && x.subject == d.subject && x.body == d.body)) = true ∧
      (((s.save_draft d).delete_draft d.id).load_drafts.all
        (fun x => x.id != d.id)) = true := by
  constructor
  · apply List.any_eq_true.mpr
    refine ⟨d, ?_, by simp⟩
    simp [Storage.save_draft, Storage.load_drafts, mem_upsert_draft_self]
  · apply List.all_eq_true.mpr
    intro x hx
    have hx2 : x ∈ (s.save_draft d).load_drafts ∧ ¬ x.id = d.id := by
      simpa [Storage.delete_draft, Storage.load_drafts] using hx
    simpa using hx2.2

/-- Claim C7: for every collection, when the backing file is absent or
unreadable, `load` returns the empty default structure instead of raising. -/
theorem load_defaults_on_missing_file (s : Storage) :
    (s.inbox_file = none → s.load_inbox = []) ∧
      (s.processed_file = none → s.load_processed_emails = []) ∧
      (s.prompts_file = none → s.load_prompts = []) ∧
      (s.drafts_file = none → s.load_drafts = []) := by
  refine ⟨fun h => ?_, fun h => ?_, fun h => ?_, fun h => ?_⟩
  · simp [Storage.load_inbox, h]
  · simp [Storage.load_processed_emails, h]
  · simp [Storage.load_prompts, h]
  · simp [Storage.load_drafts, h]

theorem load_defaults_on_missing_file_witness :
    empty_storage.load_inbox = [] ∧ empty_storage.load_processed_emails = [] ∧
      empty_storage.load_prompts = [] ∧ empty_storage.load_drafts = [] :=
  ⟨(load_defaults_on_missing_file empty_storage).1 rfl,
   (load_defaults_on_missing_file empty_storage).2.1 rfl,
   (load_defaults_on_missing_file empty_storage).2.2.1 rfl,
   (load_defaults_on_missing_file empty_storage).2.2.2 rfl⟩

/-- Claim C8: `update_prompt(t, s)` changes only the template stored for
`t`: the template looked up for any other task type is unchanged. -/
theorem update_prompt_frame (s : Storage) (t text t' : String) (h : t' ≠ t) :
    lookup_key (PromptManager.update_prompt s t text).load_prompts t'
      = lookup_key s.load_prompts t' := by
  simp only [PromptManager.update_prompt, Storage.update_prompt, Storage.save_prompts,
    Storage.load_prompts, Option.getD_some]
  exact lookup_key_set_key_ne _ _ _ _ h

theorem update_prompt_frame_witness :
    ("summary" : String) ≠ "categorization" ∧
      lookup_key (PromptManager.update_prompt small_prompt_storage "categorization"
          "New text").load_prompts "summary"
        = lookup_key small_prompt_storage.load_prompts "summary" :=
  ⟨by decide, update_prompt_frame small_prompt_storage "categorization" "New text"
    "summary" (by decide)⟩

/-- Claim C9: `get_prompt(t)` for a type `t` that is not a key of the
stored (or freshly seeded) prompt map returns the empty string. -/
theorem get_prompt_unknown_type_empty (s : Storage) (t : String)
    (h : lookup_key (PromptManager.get_all_prompts s).1 t = none) :
    (PromptManager.get_prompt s t).1 = "" := by
  simp [PromptManager.get_prompt, h]

theorem get_prompt_unknown_type_empty_witness :
    lookup_key (PromptManager.get_all_prompts small_prompt_storage).1 "nonexistent" = none ∧
      (PromptManager.get_prompt small_prompt_storage "nonexistent").1 = "" :=
  ⟨by decide, get_prompt_unknown_type_empty small_prompt_storage "nonexistent" (by decide)⟩

/-- Claim C10: `get_prompt_types` always returns exactly the four built-in
task types, unaffected by prompt edits or resets in storage. -/
theorem get_prompt_types_fixed (s : Storage) (t text : String) :
    PromptManager.get_prompt_types s
        = ["categorization", "action_item", "auto_reply", "summary"] ∧
      PromptManager.get_prompt_types (PromptManager.update_prompt s t text)
        = PromptManager.get_prompt_types s ∧
      PromptManager.get_prompt_types (PromptManager.reset_to_defaults s)
        = PromptManager.get_prompt_types s :=
  ⟨rfl, rfl, rfl⟩

end EmailAgent
